import Mathlib

/- Shallow embedding of the slot-reservation core of the venue-booking app
   (the Booking page in src/unnamed/part_002: `fetchSlotDetails` and
   `handleSubmit`, together with the phone input handler, and the slot-identity
   dispatch shared with src/src/components/slot-card.tsx).

   Conventions of the embedding:
   - JS strings are Lean `String`s; character-level operations are written as
     structural recursions over `String.toList` so that concrete instances
     evaluate inside the kernel.
   - Instants are modelled as their civil "yyyy-mm-ddThh:mm:ss" text in a UTC
     environment; `Date.prototype.toISOString` is the identity on valid civil
     strings, and an invalid string is one our strict ISO parser rejects.
   - The Supabase record store is a record of explicit lists; every query the
     code issues becomes a pure function of that record, and a thrown-and-caught
     storage error becomes an error value, so all operations are total.
   - JS numbers holding prices are `Int`. -/

namespace Booker

/-! ## String utilities (JS split/join/trim/startsWith/replace) -/

/-- JS `String.prototype.split('-')`, written over the character list.
`splitCharsOnDash cs acc` scans `cs` with the current (reversed) segment `acc`. -/
def splitCharsOnDash : List Char → List Char → List String
  | [], acc => [String.mk acc.reverse]
  | c :: cs, acc =>
    if c = '-' then String.mk acc.reverse :: splitCharsOnDash cs []
    else splitCharsOnDash cs (c :: acc)

def splitOnDash (s : String) : List String :=
  splitCharsOnDash s.toList []

/-- JS `Array.prototype.join('-')`. -/
def joinDash : List String → String
  | [] => ""
  | [x] => x
  | x :: y :: xs => x ++ "-" ++ joinDash (y :: xs)

def listStartsWith : List Char → List Char → Bool
  | [], _ => true
  | _ :: _, [] => false
  | p :: ps, c :: cs => p = c && listStartsWith ps cs

/-- JS `slotId.startsWith('temp-')`, the dispatch between virtual and persisted
slot references (part_002 line 58, line 365). -/
def startsWithTemp (s : String) : Bool :=
  listStartsWith "temp-".toList s.toList

def isSpaceChar (c : Char) : Bool :=
  c = ' ' || c = '\t' || c = '\n' || c = '\r'

/-- JS `String.prototype.trim`. -/
def trimStr (s : String) : String :=
  String.mk (((s.toList.dropWhile isSpaceChar).reverse.dropWhile isSpaceChar).reverse)

/-- JS `value.replace(/\D/g, '')` — keep only digit characters. -/
def stripNonDigits (s : String) : String :=
  String.mk (s.toList.filter Char.isDigit)

/-- The phone `Input` of the booking form (part_002 lines 574-583): the DOM
`maxLength=10` caps the field text at ten characters, and the `onChange`
handler stores `e.target.value.replace(/\D/g, '')`. -/
def phoneFieldValue (raw : String) : String :=
  stripNonDigits (String.mk (raw.toList.take 10))

/-! ## Numeric and date parsing -/

def natOfDigitsAux : List Char → Nat → Option Nat
  | [], acc => some acc
  | c :: cs, acc =>
    if c.isDigit then natOfDigitsAux cs (acc * 10 + (c.toNat - 48)) else none

/-- All-digit string to a number; `none` on the empty list or a non-digit. -/
def natOfDigits (cs : List Char) : Option Nat :=
  match cs with
  | [] => none
  | _ => natOfDigitsAux cs 0

/-- JS `parseInt`: parse the leading digit run, NaN (`none`) when there is none. -/
def parseIntLeading (cs : List Char) : Option Nat :=
  natOfDigits (cs.takeWhile Char.isDigit)

def daysInMonth (y m : Nat) : Nat :=
  if m = 2 then
    if (y % 4 = 0 && y % 100 ≠ 0) || y % 400 = 0 then 29 else 28
  else if m = 4 || m = 6 || m = 9 || m = 11 then 30 else 31

/-- Strict parse of a "yyyy-mm-dd" civil date — the shape `new Date(s)` accepts
as an ISO date; anything else is treated as unparsable (an Invalid Date). -/
def parseYMD (s : String) : Option (Nat × Nat × Nat) :=
  match s.toList with
  | [y1, y2, y3, y4, '-', m1, m2, '-', d1, d2] =>
    match natOfDigits [y1, y2, y3, y4], natOfDigits [m1, m2], natOfDigits [d1, d2] with
    | some y, some m, some d =>
      if 1 ≤ m && m ≤ 12 && 1 ≤ d && d ≤ daysInMonth y m then some (y, m, d) else none
    | _, _, _ => none
  | _ => none

/-- Strict parse of an "hh:mm:ss" time of day. -/
def parseHMS (s : String) : Option (Nat × Nat × Nat) :=
  match s.toList with
  | [h1, h2, ':', m1, m2, ':', s1, s2] =>
    match natOfDigits [h1, h2], natOfDigits [m1, m2], natOfDigits [s1, s2] with
    | some h, some m, some sec =>
      if h ≤ 23 && m ≤ 59 && sec ≤ 59 then some (h, m, sec) else none
    | _, _, _ => none
  | _ => none

/-- Validity of `new Date(s)` for the merged strings the code builds
(part_002 lines 402-408): the part before the first T must be a civil date and
the rest an hh:mm:ss time. -/
def isValidInstant (s : String) : Bool :=
  match s.toList.dropWhile (fun c => c ≠ 'T') with
  | 'T' :: rest =>
    (parseYMD (String.mk (s.toList.takeWhile (fun c => c ≠ 'T')))).isSome &&
      (parseHMS (String.mk rest)).isSome
  | _ => false

/-- Sakamoto's method; 0 = Sunday. Stands in for `format(dateObj, 'EEEE')`. -/
def weekdayIndex (y m d : Nat) : Nat :=
  let t := [0, 3, 2, 5, 0, 3, 5, 1, 4, 6, 2, 4]
  let y' := if m < 3 then y - 1 else y
  (y' + y' / 4 - y' / 100 + y' / 400 + t.getD (m - 1) 0 + d) % 7

def dayName (i : Nat) : String :=
  match i with
  | 0 => "sunday"
  | 1 => "monday"
  | 2 => "tuesday"
  | 3 => "wednesday"
  | 4 => "thursday"
  | 5 => "friday"
  | 6 => "saturday"
  | _ => "sunday"

/-- `format(new Date(date), 'EEEE').toLowerCase()` guarded by the validity check
(part_002 lines 191-201); `none` when the date does not parse. -/
def dayOfWeekOf (date : String) : Option String :=
  (parseYMD date).map (fun ymd => dayName (weekdayIndex ymd.1 ymd.2.1 ymd.2.2))

def lowerStr (s : String) : String :=
  String.mk (s.toList.map Char.toLower)

/-- `parseInt(time.split(':')[0], 10) < 12` (part_002 lines 205-206); a NaN hour
compares false, exactly as in JS. -/
def isMorningOf (time : String) : Bool :=
  match parseIntLeading (time.toList.takeWhile (fun c => c ≠ ':')) with
  | some h => h < 12
  | none => false

/-! ## Tariff resolution (part_002 lines 186-234) -/

structure PricingRule where
  day_group : String
  is_morning : Bool
  price : Int
deriving DecidableEq

/-- The pricing block of `fetchSlotDetails`: default 500, day-specific rule
first, then the weekend or weekday group, and the all-week group whenever the
running price still equals the 500 sentinel. -/
def resolvePrice (pricingData : List PricingRule) (date time : String) : Int :=
  if pricingData.isEmpty then 500
  else
    match dayOfWeekOf date with
    | none => 500
    | some dayOfWeek =>
      let isMorning := isMorningOf time
      let filteredPricing := pricingData.filter (fun p => p.is_morning == isMorning)
      match filteredPricing.find? (fun p => lowerStr p.day_group == dayOfWeek) with
      | some p => p.price
      | none =>
        let isWeekend :=
          dayOfWeek == "friday" || dayOfWeek == "saturday" || dayOfWeek == "sunday"
        let price :=
          if isWeekend then
            match filteredPricing.find? (fun p => p.day_group == "friday-sunday") with
            | some p => p.price
            | none => (500 : Int)
          else
            match filteredPricing.find? (fun p => p.day_group == "monday-thursday") with
            | some p => p.price
            | none => (500 : Int)
        if price == 500 then
          match filteredPricing.find? (fun p => p.day_group == "monday-sunday") with
          | some p => p.price
          | none => price
        else price

/-! ## Virtual-slot reference decoding (part_002 lines 56-106) -/

inductive ResolveError
  | malformedReference (msg : String)
  | notFound
  | alreadyBooked
deriving DecidableEq

instance {ε α : Type} [DecidableEq ε] [DecidableEq α] : DecidableEq (Except ε α) :=
  fun x y =>
    match x, y with
    | .ok a, .ok b =>
      if h : a = b then .isTrue (by rw [h]) else .isFalse (by intro hh; cases hh; exact h rfl)
    | .error e, .error f =>
      if h : e = f then .isTrue (by rw [h]) else .isFalse (by intro hh; cases hh; exact h rfl)
    | .ok _, .error _ => .isFalse (by intro hh; cases hh)
    | .error _, .ok _ => .isFalse (by intro hh; cases hh)

/-- The decoding loop of `fetchSlotDetails` (lines 67-88): walk the middle
segments, filling the venue id with the first five and the sport id with the
next five; any further segments are dropped. -/
def extractIds : List String → List String → List String → List String × List String
  | [], v, s => (v, s)
  | p :: rest, v, s =>
    if v.length < 5 then extractIds rest (v ++ [p]) s
    else if s.length < 5 then extractIds rest v (s ++ [p])
    else extractIds rest v s

/-- Decoding of the dash-split reference (lines 60-106): fewer than six parts is
rejected outright; the venue and sport ids are rebuilt from fixed five-segment
runs; the date and time are the last two parts; an empty reconstructed field is
rejected. -/
def decodeParts (tempParts : List String) :
    Except ResolveError (String × String × String × String) :=
  if tempParts.length < 6 then
    .error (.malformedReference "Invalid temporary slot ID format")
  else
    let vs := extractIds ((tempParts.drop 1).take (tempParts.length - 3)) [] []
    let venueId := joinDash vs.1
    let sportId := joinDash vs.2
    let date := tempParts.getD (tempParts.length - 2) ""
    let time := tempParts.getD (tempParts.length - 1) ""
    if venueId == "" || sportId == "" || date == "" || time == "" then
      .error (.malformedReference "Failed to extract slot details from ID")
    else .ok (venueId, sportId, date, time)

def decodeTempId (slotId : String) :
    Except ResolveError (String × String × String × String) :=
  decodeParts (splitOnDash slotId)

/-- Modelled from the spec: the encoder of virtual-slot references lives in the
slot-listing page, which is not among the provided sources. Spec section 4.2 and
the decoder's own comment — "Format: temp-venueID-sportID-date-time" — fix the
reference as the four fields joined by the dash delimiter after the reserved
"temp-" tag. -/
def encodeTempId (venueId sportId date time : String) : String :=
  "temp-" ++ venueId ++ "-" ++ sportId ++ "-" ++ date ++ "-" ++ time

/-! ## Data model (src/types, Supabase rows) -/

/-- A slot row; virtual slots carry a "temp-…" id. Display-only fields
(`end_time`, `created_at`, `updated_at`) are omitted: `handleSubmit` never
reads them. -/
structure Slot where
  id : String
  venue_id : String
  sport_id : String
  date : String
  start_time : String
  price : Int
  available : Bool
deriving DecidableEq

/-- A venue row; only the id is read by the commit path. -/
structure Venue where
  id : String
deriving DecidableEq

/-- A sport row; only the id is read by the commit path. -/
structure Sport where
  id : String
deriving DecidableEq

/-- The record inserted into the `bookings` collection (part_002 lines 416-426). -/
structure BookingRec where
  user_id : String
  venue_id : String
  sport_id : String
  slot_id : Option String
  slot_time : String
  status : String
  full_name : String
  phone : String
  amount : Int
deriving DecidableEq

/-- The shared record store. -/
structure DB where
  venues : List Venue
  sports : List Sport
  slots : List Slot
  bookings : List BookingRec
deriving DecidableEq

/-! ## Slot identity resolution (part_002 lines 56-124 and 240-258) -/

inductive Resolved
  | virtualSlot (venueId sportId date time : String)
  | persistedSlot (s : Slot)
deriving DecidableEq

/-- The identity-resolution part of `fetchSlotDetails`: a temp-prefixed
reference is decoded and its venue and sport rows must exist; any other
reference is looked up as a persisted slot row and rejected when unavailable.
Every thrown error is caught by the surrounding try/catch (lines 317-326), so
the function is total and returns the error it surfaces. -/
def resolveSlot (db : DB) (slotId : String) : Except ResolveError Resolved :=
  if startsWithTemp slotId then
    match decodeTempId slotId with
    | .error e => .error e
    | .ok (venueId, sportId, date, time) =>
      if db.venues.any (fun v => v.id == venueId) then
        if db.sports.any (fun s => s.id == sportId) then
          .ok (.virtualSlot venueId sportId date time)
        else .error .notFound
      else .error .notFound
  else
    match db.slots.find? (fun s => s.id == slotId) with
    | none => .error .notFound
    | some row =>
      if row.available then .ok (.persistedSlot row) else .error .alreadyBooked

/-! ## The commit protocol: handleSubmit (part_002 lines 332-456) -/

inductive Outcome
  | authRedirect
  | invalidSelection
  | alreadyBookedLocal
  | validationError
  | conflict
  | unexpectedError
  | insertRefused
  | confirmed
deriving DecidableEq

/-- Storage operations issued over the network, in order. -/
inductive Op
  | readBookings
  | readSlot
  | insert
  | update
deriving DecidableEq

structure SubmitResult where
  outcome : Outcome
  db : DB
  ops : List Op
deriving DecidableEq

/-- The pre-commit availability query for virtual slots (lines 368-373): filter
the bookings by the (venue_id, sport_id, slot_time) equality tuple. -/
def bookingsFor (bs : List BookingRec) (venueId sportId slotTime : String) :
    List BookingRec :=
  bs.filter (fun bk =>
    bk.venue_id == venueId && bk.sport_id == sportId && bk.slot_time == slotTime)

/-- The storage-layer insert (lines 428-432). `uniqueConstraint` says whether
the store carries the uniqueness constraint on
(venue_id, sport_id, slot_time, status=confirmed) that spec sections 4.4 and 9
mandate; the sources under src/ exhibit no such constraint, so both values are
covered. -/
def insertBookingRow (uniqueConstraint : Bool) (db : DB) (b : BookingRec) :
    Except Unit DB :=
  if uniqueConstraint &&
      db.bookings.any (fun bk =>
        bk.venue_id == b.venue_id && bk.sport_id == b.sport_id &&
          bk.slot_time == b.slot_time && bk.status == "confirmed" &&
          b.status == "confirmed") then
    .error ()
  else .ok { db with bookings := db.bookings ++ [b] }

/-- The follow-up flag flip for persisted slots (lines 442-445). -/
def setSlotUnavailable (db : DB) (slotId : String) : DB :=
  { db with
    slots := db.slots.map (fun s =>
      if s.id == slotId then { s with available := false } else s) }

/-- The booking record built at lines 399-426: the canonical slot timestamp is
the merged date+start_time string when it is a valid instant, and otherwise the
submission time `now` (the "current time as a last resort" fallback at
line 413). -/
def mkBookingRow (userId : String) (slot : Slot) (venue : Venue) (sport : Sport)
    (name phone now : String) : BookingRec :=
  { user_id := userId
    venue_id := venue.id
    sport_id := sport.id
    slot_id := if startsWithTemp slot.id then none else some slot.id
    slot_time :=
      if isValidInstant (slot.date ++ "T" ++ slot.start_time) then
        slot.date ++ "T" ++ slot.start_time
      else now
    status := "confirmed"
    full_name := name
    phone := phone
    amount := slot.price }

/-- The insert and the flag flip (lines 416-446), after the re-check passed. -/
def commitStep (uniqueConstraint : Bool) (userId : String) (slot : Slot)
    (venue : Venue) (sport : Sport) (name phone : String) (db : DB) (now : String)
    (ops : List Op) : SubmitResult :=
  match insertBookingRow uniqueConstraint db
      (mkBookingRow userId slot venue sport name phone now) with
  | .error _ => ⟨.insertRefused, db, ops ++ [.insert]⟩
  | .ok db' =>
    if startsWithTemp slot.id then ⟨.confirmed, db', ops ++ [.insert]⟩
    else ⟨.confirmed, setSlotUnavailable db' slot.id, ops ++ [.insert, .update]⟩

/-- The body of the try block (lines 363-446): the final availability re-check
for the specific slot, then the commit. -/
def submitCore (uniqueConstraint : Bool) (userId : String) (slot : Slot)
    (venue : Venue) (sport : Sport) (name phone : String) (db : DB) (now : String) :
    SubmitResult :=
  if startsWithTemp slot.id then
    if (bookingsFor db.bookings slot.venue_id slot.sport_id
        (slot.date ++ "T" ++ slot.start_time)).isEmpty then
      commitStep uniqueConstraint userId slot venue sport name phone db now
        [.readBookings]
    else ⟨.conflict, db, [.readBookings]⟩
  else
    match db.slots.find? (fun s => s.id == slot.id) with
    | none => ⟨.unexpectedError, db, [.readSlot]⟩
    | some row =>
      if row.available then
        commitStep uniqueConstraint userId slot venue sport name phone db now
          [.readSlot]
      else ⟨.conflict, db, [.readSlot]⟩

/-- `handleSubmit` (lines 332-456): the guard chain, then the re-check/commit
core. The page state (current user, loaded slot/venue/sport rows, the
`isSlotBooked` invalidation flag and the two form fields) is passed explicitly;
`now` is the submission instant. -/
def handleSubmit (uniqueConstraint : Bool) (user : Option String)
    (slotSel : Option Slot) (venueSel : Option Venue) (sportSel : Option Sport)
    (isSlotBooked : Bool) (name phone : String) (db : DB) (now : String) :
    SubmitResult :=
  match user with
  | none => ⟨.authRedirect, db, []⟩
  | some userId =>
    match slotSel, venueSel, sportSel with
    | some slot, some venue, some sport =>
      if isSlotBooked then ⟨.alreadyBookedLocal, db, []⟩
      else if trimStr name == "" || trimStr phone == "" then
        ⟨.validationError, db, []⟩
      else if phone.length < 10 then ⟨.validationError, db, []⟩
      else submitCore uniqueConstraint userId slot venue sport name phone db now
    | _, _, _ => ⟨.invalidSelection, db, []⟩

/-! ## Concurrent attempts racing on one (venue, sport, time) tuple -/

/-- State of N concurrent `handleSubmit` flows racing for the same tuple.
Attempts are symmetric, so the state records how many sit at each stage of the
protocol: before the availability re-check, between re-check and insert, and in
the two terminal states. They share the record store. -/
structure ProtoSt where
  db : DB
  nCheck : Nat
  nCommit : Nat
  nConf : Nat
  nRej : Nat
deriving DecidableEq

inductive Move
  | advCheck
  | advCommit
deriving DecidableEq

/-- One scheduler step: advance one attempt through its next storage round
trip. The re-check and the insert are the two operations of `handleSubmit`
(lines 364-397 and 428-438); every attempt commits the same record `b` for the
contested tuple. -/
def protoStep (uniqueConstraint : Bool) (b : BookingRec) (st : ProtoSt) :
    Move → ProtoSt
  | .advCheck =>
    if st.nCheck = 0 then st
    else
      if (bookingsFor st.db.bookings b.venue_id b.sport_id b.slot_time).isEmpty then
        { st with nCheck := st.nCheck - 1, nCommit := st.nCommit + 1 }
      else { st with nCheck := st.nCheck - 1, nRej := st.nRej + 1 }
  | .advCommit =>
    if st.nCommit = 0 then st
    else
      match insertBookingRow uniqueConstraint st.db b with
      | .ok db' => { st with db := db', nCommit := st.nCommit - 1, nConf := st.nConf + 1 }
      | .error _ => { st with nCommit := st.nCommit - 1, nRej := st.nRej + 1 }

/-- Run a schedule: an arbitrary interleaving of the attempts' round trips. -/
def runProto (uniqueConstraint : Bool) (b : BookingRec) (moves : List Move)
    (st : ProtoSt) : ProtoSt :=
  moves.foldl (protoStep uniqueConstraint b) st

/-- Classifier of the MalformedReference outcome of `resolveSlot`. -/
def isMalformedRef : Except ResolveError Resolved → Bool
  | .error (.malformedReference _) => true
  | _ => false

/-- The invariant of the race under the constraint-enforcing store: the store
gained exactly the confirmed attempts' record, at most one attempt ever
confirms, and a rejection implies a prior confirmation. -/
def protoInv (b : BookingRec) (db0 : DB) (N : Nat) (st : ProtoSt) : Prop :=
  (st.nConf = 0 ∧ st.db.bookings = db0.bookings ∨
   st.nConf = 1 ∧ st.db.bookings = db0.bookings ++ [b]) ∧
  st.nCheck + st.nCommit + st.nConf + st.nRej = N ∧
  (1 ≤ st.nRej → st.nConf = 1)

/-! ## Helper lemmas -/

lemma insertBookingRow_ok_eq (uc : Bool) (db : DB) (b : BookingRec) (db' : DB)
    (h : insertBookingRow uc db b = .ok db') :
    db' = { db with bookings := db.bookings ++ [b] } := by
  unfold insertBookingRow at h
  split at h
  · cases h
  · cases h; rfl

lemma setSlotUnavailable_bookings (db : DB) (slotId : String) :
    (setSlotUnavailable db slotId).bookings = db.bookings := rfl

/-- Exhaustive shape of a `submitCore` run: either the store is untouched and
the outcome is not Confirmed, or the outcome is Confirmed and the store gained
exactly the built booking row — plus, for a persisted slot, the flag flip on a
row that the re-check proved present. -/
lemma submitCore_cases (uc : Bool) (u : String) (sl : Slot) (v : Venue) (sp : Sport)
    (name phone : String) (db : DB) (now : String) :
    (submitCore uc u sl v sp name phone db now).db = db ∧
      (submitCore uc u sl v sp name phone db now).outcome ≠ .confirmed ∨
    (submitCore uc u sl v sp name phone db now).outcome = .confirmed ∧
      (startsWithTemp sl.id = true ∧
        (submitCore uc u sl v sp name phone db now).db =
          { db with bookings := db.bookings ++ [mkBookingRow u sl v sp name phone now] } ∨
       startsWithTemp sl.id = false ∧
        (db.slots.find? (fun s => s.id == sl.id)).isSome = true ∧
        (submitCore uc u sl v sp name phone db now).db =
          setSlotUnavailable
            { db with bookings := db.bookings ++ [mkBookingRow u sl v sp name phone now] }
            sl.id) := by
  unfold submitCore
  cases ht : startsWithTemp sl.id with
  | true =>
    simp only [ht, if_true]
    by_cases he : (bookingsFor db.bookings sl.venue_id sl.sport_id
        (sl.date ++ "T" ++ sl.start_time)).isEmpty = true
    · simp only [he, if_true]
      cases hI : insertBookingRow uc db (mkBookingRow u sl v sp name phone now) with
      | error e => left; simp [commitStep, hI]
      | ok db' =>
        have hdb' := insertBookingRow_ok_eq uc db _ db' hI
        subst hdb'
        right
        constructor
        · simp [commitStep, hI, ht]
        · left; exact ⟨trivial, by simp [commitStep, hI, ht]⟩
    · simp only [he, if_false]
      left
      simp [Bool.not_eq_true] at he
      simp [he]
  | false =>
    simp only [ht, if_false]
    cases hf : db.slots.find? (fun s => s.id == sl.id) with
    | none => left; simp
    | some row =>
      cases hav : row.available with
      | false => left; simp [hav]
      | true =>
        simp only [hav, if_true]
        cases hI : insertBookingRow uc db (mkBookingRow u sl v sp name phone now) with
        | error e => left; simp [commitStep, hI]
        | ok db' =>
          have hdb' := insertBookingRow_ok_eq uc db _ db' hI
          subst hdb'
          right
          constructor
          · simp [commitStep, hI, ht]
          · right
            refine ⟨trivial, by simp [hf], by simp [commitStep, hI, ht]⟩

/-- Exhaustive shape of a `handleSubmit` run: either a guard stopped it with
the store untouched, or all guards passed — the page held a user and the three
rows, the phone had at least ten characters — and the run is a `submitCore`
run. -/
lemma handleSubmit_cases (uc : Bool) (user : Option String) (slotSel : Option Slot)
    (venueSel : Option Venue) (sportSel : Option Sport) (isb : Bool)
    (name phone : String) (db : DB) (now : String) :
    (handleSubmit uc user slotSel venueSel sportSel isb name phone db now).db = db ∧
      (handleSubmit uc user slotSel venueSel sportSel isb name phone db now).outcome ≠ .confirmed ∨
    (∃ u sl v sp, user = some u ∧ slotSel = some sl ∧ venueSel = some v ∧ sportSel = some sp ∧
      ¬ phone.length < 10 ∧
      handleSubmit uc user slotSel venueSel sportSel isb name phone db now =
        submitCore uc u sl v sp name phone db now) := by
  cases user with
  | none => left; exact ⟨rfl, by simp [handleSubmit]⟩
  | some u =>
    cases slotSel with
    | none => left; exact ⟨rfl, by simp [handleSubmit]⟩
    | some sl =>
      cases venueSel with
      | none => left; exact ⟨rfl, by simp [handleSubmit]⟩
      | some v =>
        cases sportSel with
        | none => left; exact ⟨rfl, by simp [handleSubmit]⟩
        | some sp =>
          cases isb with
          | true => left; exact ⟨rfl, by simp [handleSubmit]⟩
          | false =>
            by_cases h1 : (trimStr name == "" || trimStr phone == "") = true
            · left; exact ⟨by simp [handleSubmit, h1], by simp [handleSubmit, h1]⟩
            · by_cases h2 : phone.length < 10
              · left
                refine ⟨by simp [handleSubmit, h1, h2], by simp [handleSubmit, h1, h2]⟩
              · right
                exact ⟨u, sl, v, sp, rfl, rfl, rfl, rfl, h2, by simp [handleSubmit, h1, h2]⟩

lemma handleSubmit_db_eq_of_ne (uc : Bool) (user : Option String) (slotSel : Option Slot)
    (venueSel : Option Venue) (sportSel : Option Sport) (isb : Bool)
    (name phone : String) (db : DB) (now : String)
    (h : (handleSubmit uc user slotSel venueSel sportSel isb name phone db now).outcome ≠ .confirmed) :
    (handleSubmit uc user slotSel venueSel sportSel isb name phone db now).db = db := by
  rcases handleSubmit_cases uc user slotSel venueSel sportSel isb name phone db now with
    ⟨hdb, _⟩ | ⟨u, sl, v, sp, _, _, _, _, _, heq⟩
  · exact hdb
  · rw [heq] at h ⊢
    rcases submitCore_cases uc u sl v sp name phone db now with ⟨hdb, _⟩ | ⟨hout, _⟩
    · exact hdb
    · exact absurd hout h

lemma find_setSlotUnavailable (rows : List Slot) (slotId : String)
    (h : (rows.find? (fun s => s.id == slotId)).isSome = true) :
    ((rows.map (fun s => if s.id == slotId then { s with available := false } else s)).find?
        (fun s => s.id == slotId)).map Slot.available = some false := by
  induction rows with
  | nil => simp at h
  | cons r rs ih =>
    by_cases hr : (r.id == slotId) = true
    · simp [List.find?, List.map_cons, if_pos hr, hr]
    · rw [Bool.not_eq_true] at hr
      simp only [List.find?, hr] at h
      simp only [List.map_cons, hr, Bool.false_eq_true, if_false, List.find?]
      exact ih h

lemma phoneFieldValue_wellFormed (raw : String) :
    (phoneFieldValue raw).length ≤ 10 ∧
      (phoneFieldValue raw).toList.all Char.isDigit = true := by
  constructor
  · show ((raw.toList.take 10).filter Char.isDigit).length ≤ 10
    calc ((raw.toList.take 10).filter Char.isDigit).length
        ≤ (raw.toList.take 10).length := List.length_filter_le _ _
      _ ≤ 10 := by simp [List.length_take]
  · show ((raw.toList.take 10).filter Char.isDigit).all Char.isDigit = true
    simp only [List.all_eq_true]
    intro c hc
    exact (List.mem_filter.mp hc).2

lemma extractIds_sport_nil (l : List String) (v : List String)
    (h : v.length + l.length ≤ 5) : (extractIds l v []).2 = [] := by
  induction l generalizing v with
  | nil => rfl
  | cons p rest ih =>
    have hv : v.length < 5 := by
      simp only [List.length_cons] at h
      omega
    rw [extractIds, if_pos hv]
    exact ih (v ++ [p])
      (by simp only [List.length_append, List.length_cons, List.length_nil] at h ⊢; omega)

lemma bookingsFor_append_self (bs : List BookingRec) (b : BookingRec) :
    bookingsFor (bs ++ [b]) b.venue_id b.sport_id b.slot_time =
      bookingsFor bs b.venue_id b.sport_id b.slot_time ++ [b] := by
  unfold bookingsFor
  rw [List.filter_append]
  simp

lemma insert_ok_of_empty (db : DB) (b : BookingRec)
    (h : bookingsFor db.bookings b.venue_id b.sport_id b.slot_time = []) :
    insertBookingRow true db b = .ok { db with bookings := db.bookings ++ [b] } := by
  unfold insertBookingRow
  have hany : (db.bookings.any fun bk =>
      bk.venue_id == b.venue_id && bk.sport_id == b.sport_id &&
        bk.slot_time == b.slot_time && bk.status == "confirmed" &&
        b.status == "confirmed") = false := by
    by_contra hne
    rw [Bool.not_eq_false] at hne
    obtain ⟨bk, hmem, hq⟩ := List.any_eq_true.mp hne
    have hpred : (bk.venue_id == b.venue_id && bk.sport_id == b.sport_id &&
        bk.slot_time == b.slot_time) = true := by
      simp only [Bool.and_eq_true] at hq ⊢
      tauto
    have hmf : bk ∈ bookingsFor db.bookings b.venue_id b.sport_id b.slot_time :=
      List.mem_filter.mpr ⟨hmem, hpred⟩
    rw [h] at hmf
    exact absurd hmf (List.not_mem_nil bk)
  simp [hany]

lemma insert_error_of_self (db : DB) (b : BookingRec)
    (hstat : b.status = "confirmed") (hmem : b ∈ db.bookings) :
    insertBookingRow true db b = .error () := by
  unfold insertBookingRow
  have hany : (db.bookings.any fun bk =>
      bk.venue_id == b.venue_id && bk.sport_id == b.sport_id &&
        bk.slot_time == b.slot_time && bk.status == "confirmed" &&
        b.status == "confirmed") = true :=
    List.any_eq_true.mpr ⟨b, hmem, by simp [hstat]⟩
  simp [hany]

lemma protoInv_step (b : BookingRec) (db0 : DB) (N : Nat)
    (hstat : b.status = "confirmed")
    (hinit : bookingsFor db0.bookings b.venue_id b.sport_id b.slot_time = [])
    (st : ProtoSt) (m : Move) (h : protoInv b db0 N st) :
    protoInv b db0 N (protoStep true b st m) := by
  obtain ⟨hdb, hsum, hrej⟩ := h
  cases m with
  | advCheck =>
    by_cases h0 : st.nCheck = 0
    · have hid : protoStep true b st .advCheck = st := by simp [protoStep, h0]
      rw [hid]
      exact ⟨hdb, hsum, hrej⟩
    · rcases hdb with ⟨hc, hb⟩ | ⟨hc, hb⟩
      · have he : (bookingsFor st.db.bookings b.venue_id b.sport_id b.slot_time).isEmpty = true := by
          rw [hb, hinit]; rfl
        simp only [protoStep, if_neg h0, he, if_true]
        exact ⟨Or.inl ⟨hc, hb⟩, by simp; omega, fun hr => hrej hr⟩
      · have hne : (bookingsFor st.db.bookings b.venue_id b.sport_id b.slot_time).isEmpty = false := by
          rw [hb, bookingsFor_append_self, hinit]; rfl
        simp only [protoStep, if_neg h0, hne, Bool.false_eq_true, if_false]
        exact ⟨Or.inr ⟨hc, hb⟩, by simp; omega, fun _ => hc⟩
  | advCommit =>
    by_cases h0 : st.nCommit = 0
    · have hid : protoStep true b st .advCommit = st := by simp [protoStep, h0]
      rw [hid]
      exact ⟨hdb, hsum, hrej⟩
    · rcases hdb with ⟨hc, hb⟩ | ⟨hc, hb⟩
      · have hok : insertBookingRow true st.db b =
            .ok { st.db with bookings := st.db.bookings ++ [b] } :=
          insert_ok_of_empty st.db b (by rw [hb]; exact hinit)
        simp only [protoStep, if_neg h0, hok]
        refine ⟨Or.inr ⟨by simp [hc], by simp [hb]⟩, by simp; omega, fun _ => by simp [hc]⟩
      · have herr : insertBookingRow true st.db b = .error () :=
          insert_error_of_self st.db b hstat
            (by rw [hb]; exact List.mem_append_right _ (List.mem_singleton_self b))
        simp only [protoStep, if_neg h0, herr]
        exact ⟨Or.inr ⟨hc, hb⟩, by simp; omega, fun _ => hc⟩

lemma protoInv_run (b : BookingRec) (db0 : DB) (N : Nat)
    (hstat : b.status = "confirmed")
    (hinit : bookingsFor db0.bookings b.venue_id b.sport_id b.slot_time = [])
    (moves : List Move) (st : ProtoSt) (h : protoInv b db0 N st) :
    protoInv b db0 N (runProto true b moves st) := by
  induction moves generalizing st with
  | nil => exact h
  | cons m ms ih =>
    simp only [runProto, List.foldl_cons]
    exact ih (protoStep true b st m) (protoInv_step b db0 N hstat hinit st m h)

/-! ## Claim theorems -/

/-- C1 (counterexample): under the storage semantics the sources exhibit — a
plain insert with no uniqueness constraint — there is a complete interleaving
of two concurrent commit attempts for the same (venue, sport, time) tuple in
which BOTH attempts reach Confirmed: both pass the availability re-check
before either inserts. -/
theorem commit_race_double_confirm_without_constraint :
    (runProto false
        ⟨"u1", "v1", "s1", none, "2025-06-14T09:00:00", "confirmed", "Alice", "1234567890", 500⟩
        [.advCheck, .advCheck, .advCommit, .advCommit]
        ⟨⟨[], [], [], []⟩, 2, 0, 0, 0⟩).nCheck = 0 ∧
    (runProto false
        ⟨"u1", "v1", "s1", none, "2025-06-14T09:00:00", "confirmed", "Alice", "1234567890", 500⟩
        [.advCheck, .advCheck, .advCommit, .advCommit]
        ⟨⟨[], [], [], []⟩, 2, 0, 0, 0⟩).nCommit = 0 ∧
    (runProto false
        ⟨"u1", "v1", "s1", none, "2025-06-14T09:00:00", "confirmed", "Alice", "1234567890", 500⟩
        [.advCheck, .advCheck, .advCommit, .advCommit]
        ⟨⟨[], [], [], []⟩, 2, 0, 0, 0⟩).nConf = 2 := by decide

/-- C1 (amended): when the storage layer does enforce the uniqueness
constraint on (venue_id, sport_id, slot_time, status=confirmed) at insert —
the guard spec sections 4.4 and 9 mandate but the sources do not exhibit —
every complete interleaving of N ≥ 1 concurrent commit attempts for one tuple,
started with no matching booking in the store, ends with exactly one attempt
Confirmed and the other N - 1 Rejected with Conflict. -/
theorem commit_race_exactly_one_confirmed (b : BookingRec) (db0 : DB) (N : Nat)
    (moves : List Move)
    (hstat : b.status = "confirmed")
    (hinit : bookingsFor db0.bookings b.venue_id b.sport_id b.slot_time = [])
    (hN : 1 ≤ N)
    (hdone : (runProto true b moves ⟨db0, N, 0, 0, 0⟩).nCheck = 0 ∧
      (runProto true b moves ⟨db0, N, 0, 0, 0⟩).nCommit = 0) :
    (runProto true b moves ⟨db0, N, 0, 0, 0⟩).nConf = 1 ∧
      (runProto true b moves ⟨db0, N, 0, 0, 0⟩).nRej = N - 1 := by
  have hinv := protoInv_run b db0 N hstat hinit moves ⟨db0, N, 0, 0, 0⟩
    ⟨Or.inl ⟨rfl, rfl⟩, by simp, by intro hcon; simp at hcon⟩
  obtain ⟨hdb, hsum, hrej⟩ := hinv
  obtain ⟨hck, hcm⟩ := hdone
  rcases hdb with ⟨hc, _⟩ | ⟨hc, _⟩
  · exfalso
    have h1 : 1 ≤ (runProto true b moves ⟨db0, N, 0, 0, 0⟩).nRej := by omega
    have h2 := hrej h1
    omega
  · exact ⟨hc, by omega⟩

/-- Witness for C1: two attempts race under the constraint-enforcing store on
the schedule check-check-commit-commit; exactly one confirms. -/
theorem commit_race_exactly_one_confirmed_witness :
    (runProto true
        ⟨"u1", "v1", "s1", none, "2025-06-14T09:00:00", "confirmed", "Alice", "1234567890", 500⟩
        [.advCheck, .advCheck, .advCommit, .advCommit]
        ⟨⟨[], [], [], []⟩, 2, 0, 0, 0⟩).nConf = 1 ∧
    (runProto true
        ⟨"u1", "v1", "s1", none, "2025-06-14T09:00:00", "confirmed", "Alice", "1234567890", 500⟩
        [.advCheck, .advCheck, .advCommit, .advCommit]
        ⟨⟨[], [], [], []⟩, 2, 0, 0, 0⟩).nRej = 2 - 1 :=
  commit_race_exactly_one_confirmed
    ⟨"u1", "v1", "s1", none, "2025-06-14T09:00:00", "confirmed", "Alice", "1234567890", 500⟩
    ⟨[], [], [], []⟩ 2 [.advCheck, .advCheck, .advCommit, .advCommit]
    rfl rfl (by decide) (by decide)

/-- C2: evaluating the decoder on a reference encoded from a dashed ISO date.
The venue id, sport id and time are recovered exactly (the decoder consumes
fixed five-segment runs for the two UUIDs), but the date comes back as only its
final day segment — "14" instead of "2025-06-14" — because the decoder takes
the date from the single last-but-one dash segment. So
decode(encode(venue, sport, date, time)) differs from the original quadruple. -/
theorem decode_encode_returns_day_segment_only :
    decodeTempId (encodeTempId "aaaaaaaa-bbbb-cccc-dddd-eeeeeeeeeeee"
        "11111111-2222-3333-4444-555555555555" "2025-06-14" "09:00:00") =
      .ok ("aaaaaaaa-bbbb-cccc-dddd-eeeeeeeeeeee",
        "11111111-2222-3333-4444-555555555555", "14", "09:00:00") ∧
    ("14" : String) ≠ "2025-06-14" := by decide

/-- C3: on a Saturday morning with the rule set
[fri-sun morning at 500, mon-sun morning at 800], the weekend day-group rule
matches, yet the resolved price is 800: the code re-reads the all-week rule
whenever the running price still equals the hard-coded default 500, so the
all-week rule DOES override a matching day-group rule priced exactly 500. -/
theorem allweek_rule_overrides_matching_weekend_rule_priced_500 :
    dayOfWeekOf "2025-06-14" = some "saturday" ∧
    resolvePrice [⟨"friday-sunday", true, 500⟩, ⟨"monday-sunday", true, 800⟩]
      "2025-06-14" "09:00:00" = 800 := by decide

/-- C4 (counterexample): a successful submit whose slot carries the date "14"
(exactly what the decoder produces from any dashed-ISO-date virtual reference)
stores the submission time "2099-01-01T00:00:00" as the booking's canonical
slot timestamp — not the merged date+start_time instant. -/
theorem confirmed_booking_stores_submission_time :
    (handleSubmit true (some "u1") (some ⟨"temp-x", "v1", "s1", "14", "09:00:00", 500, true⟩)
        (some ⟨"v1"⟩) (some ⟨"s1"⟩) false "Alice" "1234567890" ⟨[], [], [], []⟩
        "2099-01-01T00:00:00").outcome = .confirmed ∧
    (handleSubmit true (some "u1") (some ⟨"temp-x", "v1", "s1", "14", "09:00:00", 500, true⟩)
        (some ⟨"v1"⟩) (some ⟨"s1"⟩) false "Alice" "1234567890" ⟨[], [], [], []⟩
        "2099-01-01T00:00:00").db.bookings =
      [⟨"u1", "v1", "s1", none, "2099-01-01T00:00:00", "confirmed", "Alice", "1234567890", 500⟩] ∧
    ("2099-01-01T00:00:00" : String) ≠ "14" ++ "T" ++ "09:00:00" := by decide

/-- C4 (amended): every Confirmed submit inserts exactly one booking row, whose
canonical slot timestamp is the merged date+start_time instant whenever that
merged string is a valid instant, and is the submission time otherwise. -/
theorem confirmed_slot_time_is_merge_or_submission_now (uc : Bool) (isb : Bool)
    (u : String) (sl : Slot) (v : Venue) (sp : Sport)
    (name phone : String) (db : DB) (now : String)
    (h : (handleSubmit uc (some u) (some sl) (some v) (some sp) isb name phone db now).outcome
      = .confirmed) :
    (handleSubmit uc (some u) (some sl) (some v) (some sp) isb name phone db now).db.bookings =
      db.bookings ++ [mkBookingRow u sl v sp name phone now] ∧
    (isValidInstant (sl.date ++ "T" ++ sl.start_time) = true →
      (mkBookingRow u sl v sp name phone now).slot_time = sl.date ++ "T" ++ sl.start_time) ∧
    (isValidInstant (sl.date ++ "T" ++ sl.start_time) = false →
      (mkBookingRow u sl v sp name phone now).slot_time = now) := by
  refine ⟨?_, fun hv => by simp [mkBookingRow, hv], fun hv => by simp [mkBookingRow, hv]⟩
  rcases handleSubmit_cases uc (some u) (some sl) (some v) (some sp) isb name phone db now with
    ⟨_, hne⟩ | ⟨u', sl', v', sp', hu, hsl, hvv, hsp, _, heq⟩
  · exact absurd h hne
  · cases hu; cases hsl; cases hvv; cases hsp
    rw [heq] at h ⊢
    rcases submitCore_cases uc u sl v sp name phone db now with ⟨_, hne⟩ | ⟨_, hshape⟩
    · exact absurd h hne
    · rcases hshape with ⟨_, hdb⟩ | ⟨_, _, hdb⟩
      · rw [hdb]
      · rw [hdb, setSlotUnavailable_bookings]

/-- Witness for C4: a submit for a slot dated "2025-06-14" at "09:00:00"
confirms, and the stored canonical timestamp is the merged instant. -/
theorem confirmed_slot_time_is_merge_or_submission_now_witness :
    (handleSubmit true (some "u1")
        (some ⟨"temp-x", "v1", "s1", "2025-06-14", "09:00:00", 500, true⟩)
        (some ⟨"v1"⟩) (some ⟨"s1"⟩) false "Alice" "1234567890" ⟨[], [], [], []⟩
        "2099-01-01T00:00:00").db.bookings =
      (⟨[], [], [], []⟩ : DB).bookings ++
        [mkBookingRow "u1" ⟨"temp-x", "v1", "s1", "2025-06-14", "09:00:00", 500, true⟩
          ⟨"v1"⟩ ⟨"s1"⟩ "Alice" "1234567890" "2099-01-01T00:00:00"] ∧
    (mkBookingRow "u1" ⟨"temp-x", "v1", "s1", "2025-06-14", "09:00:00", 500, true⟩
        ⟨"v1"⟩ ⟨"s1"⟩ "Alice" "1234567890" "2099-01-01T00:00:00").slot_time =
      "2025-06-14" ++ "T" ++ "09:00:00" :=
  ⟨(confirmed_slot_time_is_merge_or_submission_now true false "u1"
      ⟨"temp-x", "v1", "s1", "2025-06-14", "09:00:00", 500, true⟩ ⟨"v1"⟩ ⟨"s1"⟩
      "Alice" "1234567890" ⟨[], [], [], []⟩ "2099-01-01T00:00:00" (by decide)).1,
   (confirmed_slot_time_is_merge_or_submission_now true false "u1"
      ⟨"temp-x", "v1", "s1", "2025-06-14", "09:00:00", 500, true⟩ ⟨"v1"⟩ ⟨"s1"⟩
      "Alice" "1234567890" ⟨[], [], [], []⟩ "2099-01-01T00:00:00" (by decide)).2.1 (by decide)⟩

/-- C5: when a submit for a slot that is not temp-tagged (a PersistedSlot)
reaches Confirmed, the follow-up flag flip of the same call leaves that slot
row present with available = false. -/
theorem confirmed_persisted_slot_flag_flipped (uc : Bool) (isb : Bool)
    (u : String) (sl : Slot) (v : Venue) (sp : Sport)
    (name phone : String) (db : DB) (now : String)
    (hper : startsWithTemp sl.id = false)
    (h : (handleSubmit uc (some u) (some sl) (some v) (some sp) isb name phone db now).outcome
      = .confirmed) :
    ((handleSubmit uc (some u) (some sl) (some v) (some sp) isb name phone db now).db.slots.find?
        (fun s => s.id == sl.id)).map Slot.available = some false := by
  rcases handleSubmit_cases uc (some u) (some sl) (some v) (some sp) isb name phone db now with
    ⟨_, hne⟩ | ⟨u', sl', v', sp', hu, hsl, hvv, hsp, _, heq⟩
  · exact absurd h hne
  · cases hu; cases hsl; cases hvv; cases hsp
    rw [heq] at h ⊢
    rcases submitCore_cases uc u sl v sp name phone db now with ⟨_, hne⟩ | ⟨_, hshape⟩
    · exact absurd h hne
    · rcases hshape with ⟨htemp, _⟩ | ⟨_, hfind, hdb⟩
      · rw [hper] at htemp; cases htemp
      · rw [hdb]
        exact find_setSlotUnavailable db.slots sl.id hfind

/-- Witness for C5: booking the available persisted slot "slot1" confirms and
flips its flag to false. -/
theorem confirmed_persisted_slot_flag_flipped_witness :
    ((handleSubmit true (some "u1")
        (some ⟨"slot1", "v1", "s1", "2025-06-14", "09:00:00", 500, true⟩)
        (some ⟨"v1"⟩) (some ⟨"s1"⟩) false "Alice" "1234567890"
        ⟨[], [], [⟨"slot1", "v1", "s1", "2025-06-14", "09:00:00", 500, true⟩], []⟩
        "2099-01-01T00:00:00").db.slots.find?
          (fun s => s.id == "slot1")).map Slot.available = some false :=
  confirmed_persisted_slot_flag_flipped true false "u1"
    ⟨"slot1", "v1", "s1", "2025-06-14", "09:00:00", 500, true⟩ ⟨"v1"⟩ ⟨"s1"⟩
    "Alice" "1234567890"
    ⟨[], [], [⟨"slot1", "v1", "s1", "2025-06-14", "09:00:00", 500, true⟩], []⟩
    "2099-01-01T00:00:00" (by decide) (by decide)

/-- C6: whenever a submit terminates Rejected — Conflict at the pre-commit
re-check or a refused insert — the slots collection, and with it every
availability flag, is exactly what it was before the call. -/
theorem rejected_submit_leaves_slot_flags_unchanged (uc : Bool)
    (user : Option String) (slotSel : Option Slot) (venueSel : Option Venue)
    (sportSel : Option Sport) (isb : Bool) (name phone : String) (db : DB) (now : String)
    (h : (handleSubmit uc user slotSel venueSel sportSel isb name phone db now).outcome = .conflict ∨
      (handleSubmit uc user slotSel venueSel sportSel isb name phone db now).outcome = .insertRefused) :
    (handleSubmit uc user slotSel venueSel sportSel isb name phone db now).db.slots = db.slots := by
  have hne : (handleSubmit uc user slotSel venueSel sportSel isb name phone db now).outcome
      ≠ .confirmed := by
    rcases h with h | h <;> rw [h] <;> simp
  rw [handleSubmit_db_eq_of_ne uc user slotSel venueSel sportSel isb name phone db now hne]

/-- Witness for C6: a submit that hits Conflict at the re-check (an identical
booking already exists) leaves the slots collection unchanged. -/
theorem rejected_submit_leaves_slot_flags_unchanged_witness :
    (handleSubmit true (some "u1")
        (some ⟨"temp-x", "v1", "s1", "2025-06-14", "09:00:00", 500, true⟩)
        (some ⟨"v1"⟩) (some ⟨"s1"⟩) false "Alice" "1234567890"
        ⟨[], [], [],
          [⟨"u0", "v1", "s1", none, "2025-06-14T09:00:00", "confirmed", "Bob", "0123456789", 500⟩]⟩
        "2099-01-01T00:00:00").db.slots =
      (⟨[], [], [],
        [⟨"u0", "v1", "s1", none, "2025-06-14T09:00:00", "confirmed", "Bob", "0123456789", 500⟩]⟩
        : DB).slots :=
  rejected_submit_leaves_slot_flags_unchanged true (some "u1")
    (some ⟨"temp-x", "v1", "s1", "2025-06-14", "09:00:00", 500, true⟩)
    (some ⟨"v1"⟩) (some ⟨"s1"⟩) false "Alice" "1234567890"
    ⟨[], [], [],
      [⟨"u0", "v1", "s1", none, "2025-06-14T09:00:00", "confirmed", "Bob", "0123456789", 500⟩]⟩
    "2099-01-01T00:00:00" (Or.inl (by decide))

/-- C7: a submission whose name or phone trims to empty, or whose phone has
fewer than ten characters, is stopped by the validation guard: the outcome is
ValidationError, no storage operation is issued, and the store is unchanged. -/
theorem invalid_contact_validation_error_no_storage_ops (uc : Bool) (u : String)
    (sl : Slot) (v : Venue) (sp : Sport) (name phone : String) (db : DB) (now : String)
    (h : trimStr name = "" ∨ trimStr phone = "" ∨ phone.length < 10) :
    (handleSubmit uc (some u) (some sl) (some v) (some sp) false name phone db now).outcome
        = .validationError ∧
      (handleSubmit uc (some u) (some sl) (some v) (some sp) false name phone db now).db = db ∧
      (handleSubmit uc (some u) (some sl) (some v) (some sp) false name phone db now).ops = [] := by
  by_cases h1 : (trimStr name == "" || trimStr phone == "") = true
  · simp [handleSubmit, h1]
  · simp only [Bool.or_eq_true, beq_iff_eq] at h1
    push_neg at h1
    have h3 : phone.length < 10 := by
      rcases h with h | h | h
      · exact absurd h h1.1
      · exact absurd h h1.2
      · exact h
    simp [handleSubmit, h1.1, h1.2, h3]

/-- Witness for C7: submitting with phone "12345" (five digits) yields
ValidationError with no storage operation and an unchanged store. -/
theorem invalid_contact_validation_error_no_storage_ops_witness :
    (handleSubmit true (some "u1")
        (some ⟨"temp-x", "v1", "s1", "2025-06-14", "09:00:00", 500, true⟩)
        (some ⟨"v1"⟩) (some ⟨"s1"⟩) false "Bob" "12345" ⟨[], [], [], []⟩
        "2099-01-01T00:00:00").outcome = .validationError ∧
    (handleSubmit true (some "u1")
        (some ⟨"temp-x", "v1", "s1", "2025-06-14", "09:00:00", 500, true⟩)
        (some ⟨"v1"⟩) (some ⟨"s1"⟩) false "Bob" "12345" ⟨[], [], [], []⟩
        "2099-01-01T00:00:00").db = ⟨[], [], [], []⟩ ∧
    (handleSubmit true (some "u1")
        (some ⟨"temp-x", "v1", "s1", "2025-06-14", "09:00:00", 500, true⟩)
        (some ⟨"v1"⟩) (some ⟨"s1"⟩) false "Bob" "12345" ⟨[], [], [], []⟩
        "2099-01-01T00:00:00").ops = [] :=
  invalid_contact_validation_error_no_storage_ops true "u1"
    ⟨"temp-x", "v1", "s1", "2025-06-14", "09:00:00", 500, true⟩ ⟨"v1"⟩ ⟨"s1"⟩
    "Bob" "12345" ⟨[], [], [], []⟩ "2099-01-01T00:00:00"
    (Or.inr (Or.inr (by decide)))

/-- C8 (counterexample): a reference lacking the temp tag is not treated as
malformed: it follows the persisted-slot path and here resolves successfully
to the stored row "s1". -/
theorem untagged_reference_resolves_as_persisted :
    resolveSlot ⟨[], [], [⟨"s1", "v1", "sp1", "2025-06-14", "09:00:00", 500, true⟩], []⟩ "s1" =
      .ok (.persistedSlot ⟨"s1", "v1", "sp1", "2025-06-14", "09:00:00", 500, true⟩) := by
  decide

/-- C8 (amended): every temp-tagged reference with at most eight dash
segments — too few to supply both five-segment UUIDs — resolves to
MalformedReference; and `resolveSlot` is a total function, so no input throws
uncaught. References without the tag take the persisted-slot path instead. -/
theorem short_temp_reference_malformed (db : DB) (ref : String)
    (hpre : startsWithTemp ref = true)
    (hseg : (splitOnDash ref).length ≤ 8) :
    isMalformedRef (resolveSlot db ref) = true := by
  unfold resolveSlot
  rw [if_pos hpre]
  unfold decodeTempId decodeParts
  by_cases hlen : (splitOnDash ref).length < 6
  · rw [if_pos hlen]
    rfl
  · rw [if_neg hlen]
    have h2 : (extractIds (((splitOnDash ref).drop 1).take ((splitOnDash ref).length - 3))
        [] []).2 = [] := by
      apply extractIds_sport_nil
      simp only [List.length_nil, List.length_take, List.length_drop, Nat.zero_add]
      omega
    simp only [h2, joinDash]
    have hbeq : ("" == "") = true := rfl
    simp only [hbeq, Bool.or_true, Bool.true_or, if_true]
    rfl

/-- Witness for C8: the four-segment reference "temp-a-b-c" is rejected as
MalformedReference. -/
theorem short_temp_reference_malformed_witness :
    isMalformedRef (resolveSlot ⟨[], [], [], []⟩ "temp-a-b-c") = true :=
  short_temp_reference_malformed ⟨[], [], [], []⟩ "temp-a-b-c" (by decide) (by decide)

/-- C9: when the date string does not parse, tariff resolution returns the
hard-coded default price 500 for every rule set and time; the function is
total, so nothing is thrown. -/
theorem tariff_default_on_unparsable_date (rules : List PricingRule) (date time : String)
    (h : parseYMD date = none) : resolvePrice rules date time = 500 := by
  unfold resolvePrice
  split
  · rfl
  · simp [dayOfWeekOf, h]

/-- Witness for C9: "not-a-date" does not parse and resolves to the default
500 even though a rule priced 999 is present. -/
theorem tariff_default_on_unparsable_date_witness :
    parseYMD "not-a-date" = none ∧
      resolvePrice [⟨"monday-sunday", true, 999⟩] "not-a-date" "09:00:00" = 500 :=
  ⟨by decide,
    tariff_default_on_unparsable_date [⟨"monday-sunday", true, 999⟩] "not-a-date" "09:00:00"
      (by decide)⟩

/-- C10: every booking row a submit adds to the store carries a phone of
exactly ten digit characters, provided the phone came through the booking
form's input handler (which keeps only digits of the first ten characters);
the submit guard requires at least ten. -/
theorem inserted_booking_phone_ten_digits (uc : Bool) (user : Option String)
    (slotSel : Option Slot) (venueSel : Option Venue) (sportSel : Option Sport)
    (isb : Bool) (name raw : String) (db : DB) (now : String) :
    ∀ b ∈ (handleSubmit uc user slotSel venueSel sportSel isb name
        (phoneFieldValue raw) db now).db.bookings,
      b ∈ db.bookings ∨ (b.phone.length = 10 ∧ b.phone.toList.all Char.isDigit = true) := by
  intro b hb
  rcases handleSubmit_cases uc user slotSel venueSel sportSel isb name
      (phoneFieldValue raw) db now with ⟨hdb, _⟩ | ⟨u, sl, v, sp, _, _, _, _, hlen, heq⟩
  · rw [hdb] at hb; exact Or.inl hb
  · rw [heq] at hb
    rcases submitCore_cases uc u sl v sp name (phoneFieldValue raw) db now with
      ⟨hdb, _⟩ | ⟨_, hshape⟩
    · rw [hdb] at hb; exact Or.inl hb
    · have hbmem : b ∈ db.bookings ++ [mkBookingRow u sl v sp name (phoneFieldValue raw) now] := by
        rcases hshape with ⟨_, hdb⟩ | ⟨_, _, hdb⟩
        · rw [hdb] at hb; exact hb
        · rw [hdb, setSlotUnavailable_bookings] at hb; exact hb
      rcases List.mem_append.mp hbmem with hmem | hmem
      · exact Or.inl hmem
      · right
        have hbrow : b = mkBookingRow u sl v sp name (phoneFieldValue raw) now :=
          List.mem_singleton.mp hmem
        have hwf := phoneFieldValue_wellFormed raw
        have hphone : b.phone = phoneFieldValue raw := by rw [hbrow]; rfl
        rw [hphone]
        exact ⟨Nat.le_antisymm hwf.1 (Nat.not_lt.mp hlen), hwf.2⟩

/-- Witness for C10: the field value built from typing "9876543210" submits
successfully and the inserted row's phone is ten digits. -/
theorem inserted_booking_phone_ten_digits_witness :
    mkBookingRow "u1" ⟨"temp-x", "v1", "s1", "2025-06-14", "09:00:00", 500, true⟩
        ⟨"v1"⟩ ⟨"s1"⟩ "Alice" (phoneFieldValue "9876543210") "2099-01-01T00:00:00" ∈
      (⟨[], [], [], []⟩ : DB).bookings ∨
    ((mkBookingRow "u1" ⟨"temp-x", "v1", "s1", "2025-06-14", "09:00:00", 500, true⟩
        ⟨"v1"⟩ ⟨"s1"⟩ "Alice" (phoneFieldValue "9876543210")
        "2099-01-01T00:00:00").phone.length = 10 ∧
      (mkBookingRow "u1" ⟨"temp-x", "v1", "s1", "2025-06-14", "09:00:00", 500, true⟩
        ⟨"v1"⟩ ⟨"s1"⟩ "Alice" (phoneFieldValue "9876543210")
        "2099-01-01T00:00:00").phone.toList.all Char.isDigit = true) :=
  inserted_booking_phone_ten_digits true (some "u1")
    (some ⟨"temp-x", "v1", "s1", "2025-06-14", "09:00:00", 500, true⟩)
    (some ⟨"v1"⟩) (some ⟨"s1"⟩) false "Alice" "9876543210" ⟨[], [], [], []⟩
    "2099-01-01T00:00:00"
    (mkBookingRow "u1" ⟨"temp-x", "v1", "s1", "2025-06-14", "09:00:00", 500, true⟩
      ⟨"v1"⟩ ⟨"s1"⟩ "Alice" (phoneFieldValue "9876543210") "2099-01-01T00:00:00")
    (by decide)

end Booker
